import Mathlib

/-!
Shallow embedding of the raptor-core dual-actuator command/telemetry core.

The repository contains two historical variants of the program:
* `src/unnamed/part_001` (first document): the current version, with per-VFD
  telemetry, chain-speed control, a direction mismatch warning, and fresh
  per-write child connections.  Embedded below in namespace `Raptor`.
* `src/main.go`: the earlier version, which gates direction control behind the
  `ENABLE_DIRECTION_CONTROL` environment flag.  Embedded in namespace
  `RaptorLegacy` (only the parts the claims about the flag need).

Machine integers are modelled as `Nat` (all values involved stay far below
2^16 / 2^64; the poll-loop sequence counter, a Go `uint64`, is reduced
`% 2^64` where it is incremented).  Modbus I/O is modelled by explicit
success/failure flags supplied as inputs, and each operation returns both the
new control state and the list of register/coil write requests it issued.
-/

namespace Raptor

/-- The three physical drives: the main (chain) VFD at .22 and the two child
(wheel) VFDs at .23 (inner) and .24 (outer). -/
inductive Device where
  | mainVFD
  | child1
  | child2
deriving DecidableEq, Repr

/-- Kind of a Modbus write request: a coil write (`WriteSingleCoil`) or a
holding-register write (`WriteSingleRegister`). -/
inductive WKind where
  | coil
  | reg
deriving DecidableEq, Repr

/-- One Modbus write request issued by the program: its kind, target device,
zero-based wire address, and the 16-bit value sent. -/
structure WriteEvent where
  kind : WKind
  dev : Device
  addr : Nat
  value : Nat
deriving DecidableEq, Repr

/-- The locally tracked control state: `currentDirection`, `directionWarning`,
`currentSpeed` and `currentChainSpeed` in `main` of `src/unnamed/part_001`.
The poll loop reads these; only the command path writes them. -/
structure ControlState where
  currentDirection : String
  directionWarning : String
  currentSpeed : Nat
  currentChainSpeed : Nat
deriving DecidableEq, Repr

/-- Startup defaults: direction `"fwd"`, empty warning, wheel speed 600,
chain speed 420 (the `Store` calls right after the variables are declared). -/
def initialState : ControlState :=
  { currentDirection := "fwd"
    directionWarning := ""
    currentSpeed := 600
    currentChainSpeed := 420 }

/-- Source `const speedRegister = 121` (P0122, zero-based). -/
def speedRegister : Nat := 121

/-- Source `const directionRegister = 226` (P0227, zero-based). -/
def directionRegister : Nat := 226

/-- Source `const minSpeed uint16 = 100`. -/
def minSpeed : Nat := 100

/-- Source `const maxSpeed uint16 = 1500`. -/
def maxSpeed : Nat := 1500

/-- Source `const minChainSpeed uint16 = 100`. -/
def minChainSpeed : Nat := 100

/-- Source `const maxChainSpeed uint16 = 1200`. -/
def maxChainSpeed : Nat := 1200

/-- Source `const wheelsCoilOneBased = 50066`. -/
def wheelsCoilOneBased : Nat := 50066

/-- Source `const chainCoilOneBased = 50067`. -/
def chainCoilOneBased : Nat := 50067

/-- The clamping at the top of `writeSpeedToBothWheels`:
speeds below `minSpeed` become `minSpeed`, above `maxSpeed` become
`maxSpeed`. -/
def clampSpeed (s : Nat) : Nat :=
  if s < minSpeed then minSpeed
  else if s > maxSpeed then maxSpeed
  else s

/-- The clamping at the top of `writeChainSpeed`, against the chain range. -/
def clampChainSpeed (s : Nat) : Nat :=
  if s < minChainSpeed then minChainSpeed
  else if s > maxChainSpeed then maxChainSpeed
  else s

/-- Source `outerSpeed := uint16(float64(speed) * outerWheelRatio)` with
`outerWheelRatio = 0.9167`.  Go's float-to-integer conversion truncates
toward zero, so this is the floor of the product.  For every clamped speed
(indeed for every `uint16` input) the binary64 computation
`float64(speed) * 0.9167` is within 3e-13 of the exact rational
`speed * 9167 / 10000`, whose distance to the nearest integer is at least
1e-4 (since `gcd 9167 10000 = 1` and `speed < 10000`), so the truncation
equals the exact rational floor, i.e. natural-number division. -/
def outerSpeedOf (speed : Nat) : Nat :=
  speed * 9167 / 10000

/-- The direction-string normalization inside `writeDirectionToBothWheels`:
`"rev"` stays, anything else becomes `"fwd"`. -/
def normalizeDirection (d : String) : String :=
  if d = "rev" then "rev" else "fwd"

/-- The register value written for a direction: 1 for `"rev"`, else 0. -/
def directionVal (d : String) : Nat :=
  if d = "rev" then 1 else 0

/-- Outcome flags for one child-drive operation that opens a fresh
connection: whether `Connect` succeeded and, if so, whether the register
write succeeded. -/
structure ChildConn where
  connectOk : Bool
  writeOk : Bool
deriving DecidableEq, Repr

/-- The combined error of one child operation (`err1`/`err2` in the source):
set when the connect or the write failed. -/
def ChildConn.failed (io : ChildConn) : Bool :=
  !(io.connectOk && io.writeOk)

/-- The write requests a child operation puts on the wire: the register write
is issued exactly when the fresh connection was established. -/
def childTrace (io : ChildConn) (dev : Device) (addr value : Nat) :
    List WriteEvent :=
  if io.connectOk then [⟨WKind.reg, dev, addr, value⟩] else []

/-- Membership in a child operation's request list. -/
lemma mem_childTrace {e : WriteEvent} {io : ChildConn} {dev : Device}
    {addr v : Nat} :
    e ∈ childTrace io dev addr v ↔
      io.connectOk = true ∧ e = ⟨WKind.reg, dev, addr, v⟩ := by
  cases h : io.connectOk <;> simp [childTrace, h]

/-- Function `writeDirectionToBothWheels` of `src/unnamed/part_001`: normalize the
direction, write P0227 concurrently to both children over fresh connections,
then classify: both failed → warning only; exactly one failed → update
direction and set a warning naming the failing wheel; both succeeded →
update direction and clear the warning.  The returned list holds the issued
write requests (child1 listed first; the source issues them concurrently). -/
def writeDirectionToBothWheels (st : ControlState) (direction : String)
    (io1 io2 : ChildConn) : ControlState × List WriteEvent :=
  let d := normalizeDirection direction
  let val := directionVal direction
  let tr := childTrace io1 Device.child1 directionRegister val ++
    childTrace io2 Device.child2 directionRegister val
  if io1.failed && io2.failed then
    ({ st with directionWarning := "Direction change failed on both wheels" },
      tr)
  else if io1.failed then
    ({ st with
        directionWarning :=
          "WARNING: Inner wheel (.23) direction change failed - wheels may be mismatched!"
        currentDirection := d }, tr)
  else if io2.failed then
    ({ st with
        directionWarning :=
          "WARNING: Outer wheel (.24) direction change failed - wheels may be mismatched!"
        currentDirection := d }, tr)
  else
    ({ st with currentDirection := d, directionWarning := "" }, tr)

/-- Function `writeSpeedToBothWheels` of `src/unnamed/part_001`: clamp the speed,
derive the outer-wheel value, write P0122 concurrently to both children over
fresh connections, and store the clamped speed in the control state after
both attempts complete, regardless of their success. -/
def writeSpeedToBothWheels (st : ControlState) (speed : Nat)
    (io1 io2 : ChildConn) : ControlState × List WriteEvent :=
  let s := clampSpeed speed
  let outerSpeed := outerSpeedOf s
  let tr := childTrace io1 Device.child1 speedRegister s ++
    childTrace io2 Device.child2 speedRegister outerSpeed
  ({ st with currentSpeed := s }, tr)

/-- Function `writeChainSpeed` of `src/unnamed/part_001`: clamp against the chain
range, write P0122 once to the main VFD over its persistent connection
(`writeOk` is the outcome), and record the clamped value only when that
write succeeded. -/
def writeChainSpeed (st : ControlState) (speed : Nat) (writeOk : Bool) :
    ControlState × List WriteEvent :=
  let s := clampChainSpeed speed
  let tr := [⟨WKind.reg, Device.mainVFD, speedRegister, s⟩]
  if writeOk then ({ st with currentChainSpeed := s }, tr) else (st, tr)

/-- The `writeCoil` helper: convert the 1-based coil address to 0-based,
encode the boolean as 0xFF00/0x0000, and issue one coil write against the
main VFD's persistent connection. -/
def writeCoilEvent (addrOneBased : Nat) (b : Bool) : WriteEvent :=
  ⟨WKind.coil, Device.mainVFD, addrOneBased - 1, if b then 0xFF00 else 0⟩

/-- An inbound command after JSON decoding (`Cmd` in
`src/unnamed/part_001`): every field independently optional. -/
structure Cmd where
  wheels : Option Bool
  chain : Option Bool
  direction : Option String
  speed : Option Nat
  chainSpeed : Option Nat
deriving DecidableEq, Repr

/-- Success/failure flags for every Modbus operation one dequeued command
may perform.  Coil writes always put a request on the wire (persistent main
connection); their `Ok` flags model the write outcome. -/
structure Faults where
  wheelsCoilOk : Bool
  chainCoilOk : Bool
  dirChild1 : ChildConn
  dirChild2 : ChildConn
  spdChild1 : ChildConn
  spdChild2 : ChildConn
  chainWriteOk : Bool
deriving DecidableEq, Repr

/-- Every operation succeeds. -/
def Faults.allOk : Faults :=
  ⟨true, true, ⟨true, true⟩, ⟨true, true⟩, ⟨true, true⟩, ⟨true, true⟩, true⟩

/-- The body of the command-consumer goroutine for one dequeued command
(`for c := range cmdCh` in `src/unnamed/part_001`): in order, a wheels-coil
write, a chain-coil write, a direction dual write, a wheel-speed dual write
and a chain-speed write — each performed exactly when its field is present.
Returns the updated control state and the concatenated write requests. -/
def processCmd (st : ControlState) (c : Cmd) (f : Faults) :
    ControlState × List WriteEvent :=
  let t1 := match c.wheels with
    | some b => [writeCoilEvent wheelsCoilOneBased b]
    | none => []
  let t2 := match c.chain with
    | some b => [writeCoilEvent chainCoilOneBased b]
    | none => []
  let r3 := match c.direction with
    | some d => writeDirectionToBothWheels st d f.dirChild1 f.dirChild2
    | none => (st, [])
  let r4 := match c.speed with
    | some s => writeSpeedToBothWheels r3.1 s f.spdChild1 f.spdChild2
    | none => (r3.1, [])
  let r5 := match c.chainSpeed with
    | some s => writeChainSpeed r4.1 s f.chainWriteOk
    | none => (r4.1, [])
  (r5.1, t1 ++ t2 ++ r3.2 ++ r4.2 ++ r5.2)

/-- One per-VFD telemetry sample (`VFDTelemetry`).  `amps` is P0006 scaled
by the fixed factor 1/200 (exact here; the Go `float32` division agrees on
the zero value the claims inspect). -/
structure VFDTelemetry where
  targetRPM : Nat
  actualRPM : Nat
  voltage : Nat
  amps : ℚ
  driveState : Nat
deriving DecidableEq, Repr

/-- The Go zero value `VFDTelemetry{}`, used for a drive whose read
failed. -/
def VFDTelemetry.zero : VFDTelemetry := ⟨0, 0, 0, 0, 0⟩

/-- Go `binary.BigEndian.Uint16` on two bytes. -/
def be16 (hi lo : Nat) : Nat :=
  hi % 256 * 256 + lo % 256

/-- Inputs to one `readVFDTelemetry` call: whether the fresh connection
succeeded and, if so, the byte slice `ReadHoldingRegisters(1, 6)` returned
(`none` = read error). -/
structure TelemetryReadInput where
  connectOk : Bool
  readBytes : Option (List Nat)
deriving DecidableEq, Repr

/-- Function `readVFDTelemetry` of `src/unnamed/part_001`: fail on connect failure,
read failure, or a short (< 12 byte) reply; otherwise decode the five
big-endian registers, scaling P0006 by 1/200. -/
def readVFDTelemetry (inp : TelemetryReadInput) : Option VFDTelemetry :=
  if !inp.connectOk then none
  else match inp.readBytes with
    | none => none
    | some raw =>
      if raw.length < 12 then none
      else some
        { targetRPM := be16 (raw.getD 0 0) (raw.getD 1 0)
          actualRPM := be16 (raw.getD 2 0) (raw.getD 3 0)
          voltage := be16 (raw.getD 6 0) (raw.getD 7 0)
          amps := (be16 (raw.getD 8 0) (raw.getD 9 0) : ℚ) / 200
          driveState := be16 (raw.getD 10 0) (raw.getD 11 0) }

/-- The published snapshot (`Snapshot` of `src/unnamed/part_001`). -/
structure Snapshot where
  seq : Nat
  ts : String
  chain : VFDTelemetry
  innerWheel : VFDTelemetry
  outerWheel : VFDTelemetry
  voltage : Nat
  targetRPM : Nat
  actualRPM : Nat
  wheelsRunning : Bool
  paddleRunning : Bool
  wheelDirection : String
  wheelSpeed : Nat
  chainSpeed : Nat
  directionWarning : String
deriving DecidableEq, Repr

/-- Per-tick inputs to the poll loop: the three telemetry reads (chain,
inner, outer), the two coil reads from the main VFD (`none` = failed or
short read, leaving the Go zero value `false`), and the timestamp. -/
structure PollTickInput where
  chainRead : TelemetryReadInput
  innerRead : TelemetryReadInput
  outerRead : TelemetryReadInput
  wheelsCoil : Option Bool
  paddleCoil : Option Bool
  ts : String
deriving DecidableEq, Repr

/-- One iteration of the state-publisher loop of `src/unnamed/part_001`:
read all three VFDs (a failed read degrades to the zero sample), read the
two coils (a failed read leaves `false`), copy the locally tracked control
state, increment the `uint64` sequence counter, and assemble the snapshot.
Returns the published snapshot and the new counter value. -/
def pollTick (st : ControlState) (seq : Nat) (inp : PollTickInput) :
    Snapshot × Nat :=
  let chainTelem := (readVFDTelemetry inp.chainRead).getD VFDTelemetry.zero
  let innerTelem := (readVFDTelemetry inp.innerRead).getD VFDTelemetry.zero
  let outerTelem := (readVFDTelemetry inp.outerRead).getD VFDTelemetry.zero
  let seqNew := (seq + 1) % 2 ^ 64
  ({ seq := seqNew
     ts := inp.ts
     chain := chainTelem
     innerWheel := innerTelem
     outerWheel := outerTelem
     voltage := chainTelem.voltage
     targetRPM := chainTelem.targetRPM
     actualRPM := chainTelem.actualRPM
     wheelsRunning := inp.wheelsCoil.getD false
     paddleRunning := inp.paddleCoil.getD false
     wheelDirection := st.currentDirection
     wheelSpeed := st.currentSpeed
     chainSpeed := st.currentChainSpeed
     directionWarning := st.directionWarning }, seqNew)

/-- The poll loop run from a given counter value over a list of tick
inputs, collecting the published snapshots. -/
def pollRunFrom (st : ControlState) (seq : Nat) :
    List PollTickInput → List Snapshot
  | [] => []
  | inp :: rest =>
    let r := pollTick st seq inp
    r.1 :: pollRunFrom st r.2 rest

/-- A whole run of the poll loop: the counter starts at the `uint64` zero
value (`var seq uint64`). -/
def pollRun (st : ControlState) (inputs : List PollTickInput) :
    List Snapshot :=
  pollRunFrom st 0 inputs

end Raptor

namespace RaptorLegacy

/-!
The earlier variant `src/main.go`, which introduced the
`ENABLE_DIRECTION_CONTROL` environment flag
(`directionControlEnabled := os.Getenv("ENABLE_DIRECTION_CONTROL") == "true"`,
so the flag is `false` unless that variable is exactly `"true"`).  Only the
command path is embedded; the write-request trace reuses `Raptor.WriteEvent`.
-/

open Raptor (Device WKind WriteEvent ChildConn childTrace writeCoilEvent
  wheelsCoilOneBased chainCoilOneBased)

/-- Source `const directionRegister = 227` in `src/main.go` (the later variant
corrected this to 226). -/
def directionRegister : Nat := 227

/-- Source `const speedRegister = 121`. -/
def speedRegister : Nat := 121

/-- Source `const minSpeed uint16 = 100`. -/
def minSpeed : Nat := 100

/-- Source `const maxSpeed uint16 = 1200` (the later variant raised this to
1500). -/
def maxSpeed : Nat := 1200

/-- Locally tracked state of `src/main.go`: direction and wheel speed (no
warning, no chain speed in this variant). -/
structure ControlState where
  currentDirection : String
  currentSpeed : Nat
deriving DecidableEq, Repr

/-- Inbound command of `src/main.go` (no chain-speed field). -/
structure Cmd where
  wheels : Option Bool
  chain : Option Bool
  direction : Option String
  speed : Option Nat
deriving DecidableEq, Repr

/-- The clamping in `src/main.go`'s `writeSpeedToBothWheels`. -/
def clampSpeed (s : Nat) : Nat :=
  if s < minSpeed then minSpeed
  else if s > maxSpeed then maxSpeed
  else s

/-- Function `writeDirectionToBothWheels` of `src/main.go`: when the
direction-control flag is unset it logs, stores the requested direction
locally for UI sync, and returns without touching either drive; when set it
writes P0227 to both children over the persistent child connections (the
requests are issued regardless of the individual write errors, and the
direction is stored after both complete). -/
def writeDirectionToBothWheels (enabled : Bool) (st : ControlState)
    (direction : String) : ControlState × List WriteEvent :=
  if !enabled then
    ({ st with currentDirection := direction }, [])
  else
    let val : Nat := if direction = "rev" then 1 else 0
    ({ st with currentDirection := direction },
      [⟨WKind.reg, Device.child1, directionRegister, val⟩,
        ⟨WKind.reg, Device.child2, directionRegister, val⟩])

/-- Function `writeSpeedToBothWheels` of `src/main.go`: clamp, derive the outer
value by the same truncated 0.9167 ratio, write P0122 to both children over
fresh connections, store the clamped speed unconditionally. -/
def writeSpeedToBothWheels (st : ControlState) (speed : Nat)
    (io1 io2 : ChildConn) : ControlState × List WriteEvent :=
  let s := clampSpeed speed
  let outerSpeed := s * 9167 / 10000
  let tr := childTrace io1 Device.child1 speedRegister s ++
    childTrace io2 Device.child2 speedRegister outerSpeed
  ({ st with currentSpeed := s }, tr)

/-- I/O outcome flags for one command in `src/main.go`. -/
structure Faults where
  wheelsCoilOk : Bool
  chainCoilOk : Bool
  spdChild1 : ChildConn
  spdChild2 : ChildConn
deriving DecidableEq, Repr

/-- The command-consumer body of `src/main.go` for one dequeued command:
wheels coil, chain coil, direction (through the flag-gated
`writeDirectionToBothWheels`), wheel speed. -/
def processCmd (enabled : Bool) (st : ControlState) (c : Cmd) (f : Faults) :
    ControlState × List WriteEvent :=
  let t1 := match c.wheels with
    | some b => [writeCoilEvent wheelsCoilOneBased b]
    | none => []
  let t2 := match c.chain with
    | some b => [writeCoilEvent chainCoilOneBased b]
    | none => []
  let r3 := match c.direction with
    | some d => writeDirectionToBothWheels enabled st d
    | none => (st, [])
  let r4 := match c.speed with
    | some s => writeSpeedToBothWheels r3.1 s f.spdChild1 f.spdChild2
    | none => (r3.1, [])
  (r4.1, t1 ++ t2 ++ r3.2 ++ r4.2)

/-- A write request targeting the direction register of a child drive. -/
def isDirectionWrite (e : WriteEvent) : Bool :=
  e.kind == WKind.reg && e.addr == directionRegister &&
    (e.dev == Device.child1 || e.dev == Device.child2)

end RaptorLegacy

/-!
## Theorems for the claims

Each claim theorem refers to the embedded operations above.  Theorems about
the direction/speed/chain write paths and the poll loop target the current
variant (`Raptor`, from `src/unnamed/part_001`); the direction-control
enable flag exists only in the earlier variant (`RaptorLegacy`, from
`src/main.go`).
-/

/-- The spec's formula for the outer-wheel target, written from the spec's
words for comparison with the source: `round(clamp(s, min, max) * ratio)`
with `ratio = 0.9167` taken exactly. -/
def specOuterWheelTarget (s : Nat) : ℤ :=
  round ((Raptor.clampSpeed s : ℚ) * (9167 / 10000))

/-- The truncated ratio product computed by the source equals the floor of
the exact rational product. -/
lemma outerSpeedOf_eq_floor (a : ℕ) :
    ((a * 9167 / 10000 : ℕ) : ℤ) = ⌊(a : ℚ) * (9167 / 10000)⌋ := by
  rw [show ((a : ℚ) * (9167 / 10000)) = ((a * 9167 : ℕ) : ℚ) / ((10000 : ℕ) : ℚ) by
    push_cast; ring]
  rw [Rat.floor_natCast_div_natCast]
  push_cast [Int.natCast_div]
  norm_num

/-- C1: the claim as stated is false: the outer-wheel value is obtained by
Go's truncating float-to-integer conversion, not by rounding.  At wheel
speed 601 (inside the clamp range) the source sends 550 to the outer drive
while `round(clamp(601) * 0.9167) = round(550.9367) = 551`. -/
theorem C1_counterexample :
    (Raptor.writeSpeedToBothWheels Raptor.initialState 601
        ⟨true, true⟩ ⟨true, true⟩).2 =
      [⟨Raptor.WKind.reg, Raptor.Device.child1, Raptor.speedRegister, 601⟩,
        ⟨Raptor.WKind.reg, Raptor.Device.child2, Raptor.speedRegister, 550⟩] ∧
    specOuterWheelTarget 601 = 551 ∧ (550 : ℤ) ≠ 551 := by
  refine ⟨by decide, ?_, by decide⟩
  show round ((Raptor.clampSpeed 601 : ℚ) * (9167 / 10000)) = 551
  rw [show Raptor.clampSpeed 601 = 601 from by decide]
  rw [round_eq]
  rw [show ((601 : ℕ) : ℚ) * (9167 / 10000) + 1 / 2 =
      ((5514367 : ℕ) : ℚ) / ((10000 : ℕ) : ℚ) by norm_num]
  rw [Rat.floor_natCast_div_natCast]
  decide

/-- C1 (amended): for every wheel-speed command `s`, the value sent to the
outer (second) child drive equals `⌊clamp(s, min, max) * ratio⌋` (the
truncation of the product, not its rounding), the value sent to the inner
(primary) child drive equals `clamp(s, min, max)`, and after both write
attempts the recorded wheel speed equals `clamp(s, min, max)` regardless of
which child write succeeds. -/
theorem C1_amended_speed_write (st : Raptor.ControlState) (s : Nat)
    (io1 io2 : Raptor.ChildConn) :
    (Raptor.writeSpeedToBothWheels st s io1 io2).1.currentSpeed =
      Raptor.clampSpeed s ∧
    (∀ e ∈ (Raptor.writeSpeedToBothWheels st s io1 io2).2,
      e.dev = Raptor.Device.child2 →
        (e.value : ℤ) = ⌊(Raptor.clampSpeed s : ℚ) * (9167 / 10000)⌋) ∧
    (∀ e ∈ (Raptor.writeSpeedToBothWheels st s io1 io2).2,
      e.dev = Raptor.Device.child1 → e.value = Raptor.clampSpeed s) := by
  refine ⟨rfl, ?_, ?_⟩
  · intro e he hdev
    rw [show (Raptor.writeSpeedToBothWheels st s io1 io2).2 =
        Raptor.childTrace io1 Raptor.Device.child1 Raptor.speedRegister
          (Raptor.clampSpeed s) ++
        Raptor.childTrace io2 Raptor.Device.child2 Raptor.speedRegister
          (Raptor.outerSpeedOf (Raptor.clampSpeed s)) from rfl,
      List.mem_append, Raptor.mem_childTrace, Raptor.mem_childTrace] at he
    rcases he with ⟨-, rfl⟩ | ⟨-, rfl⟩
    · exact absurd hdev (by simp)
    · exact outerSpeedOf_eq_floor _
  · intro e he hdev
    rw [show (Raptor.writeSpeedToBothWheels st s io1 io2).2 =
        Raptor.childTrace io1 Raptor.Device.child1 Raptor.speedRegister
          (Raptor.clampSpeed s) ++
        Raptor.childTrace io2 Raptor.Device.child2 Raptor.speedRegister
          (Raptor.outerSpeedOf (Raptor.clampSpeed s)) from rfl,
      List.mem_append, Raptor.mem_childTrace, Raptor.mem_childTrace] at he
    rcases he with ⟨-, rfl⟩ | ⟨-, rfl⟩
    · rfl
    · exact absurd hdev (by simp)

/-- C1 witness: at speed 601 with both writes succeeding, the recorded
speed is 601 and the outer-drive value 550 equals the floor of the exact
product. -/
theorem C1_amended_speed_write_witness :
    (Raptor.writeSpeedToBothWheels Raptor.initialState 601
        ⟨true, true⟩ ⟨true, true⟩).1.currentSpeed = Raptor.clampSpeed 601 ∧
    ((550 : ℕ) : ℤ) = ⌊(Raptor.clampSpeed 601 : ℚ) * (9167 / 10000)⌋ := by
  refine ⟨(C1_amended_speed_write Raptor.initialState 601 ⟨true, true⟩ ⟨true, true⟩).1, ?_⟩
  have h := (C1_amended_speed_write Raptor.initialState 601 ⟨true, true⟩ ⟨true, true⟩).2.1
    ⟨Raptor.WKind.reg, Raptor.Device.child2, Raptor.speedRegister, 550⟩ (by decide) rfl
  exact h

/-- C3: if exactly one child-drive direction write fails, the Control State
direction is updated to the normalized requested direction and the warning
is a non-empty string naming the failing wheel: it contains `"Inner wheel"`
when the inner (child1) write failed and `"Outer wheel"` when the outer
(child2) write failed. -/
theorem C3_single_failure_updates_and_warns (st : Raptor.ControlState)
    (d : String) (io1 io2 : Raptor.ChildConn) :
    (io1.failed = true → io2.failed = false →
      (Raptor.writeDirectionToBothWheels st d io1 io2).1.currentDirection =
        Raptor.normalizeDirection d ∧
      (Raptor.writeDirectionToBothWheels st d io1 io2).1.directionWarning ≠ "" ∧
      ∃ pre post,
        (Raptor.writeDirectionToBothWheels st d io1 io2).1.directionWarning =
          pre ++ "Inner wheel" ++ post) ∧
    (io1.failed = false → io2.failed = true →
      (Raptor.writeDirectionToBothWheels st d io1 io2).1.currentDirection =
        Raptor.normalizeDirection d ∧
      (Raptor.writeDirectionToBothWheels st d io1 io2).1.directionWarning ≠ "" ∧
      ∃ pre post,
        (Raptor.writeDirectionToBothWheels st d io1 io2).1.directionWarning =
          pre ++ "Outer wheel" ++ post) := by
  constructor
  · intro h1 h2
    have e : (Raptor.writeDirectionToBothWheels st d io1 io2).1 =
        { st with
            directionWarning :=
              "WARNING: Inner wheel (.23) direction change failed - wheels may be mismatched!"
            currentDirection := Raptor.normalizeDirection d } := by
      simp [Raptor.writeDirectionToBothWheels, h1, h2]
    rw [e]
    refine ⟨rfl, ?_, "WARNING: ",
      " (.23) direction change failed - wheels may be mismatched!", ?_⟩
    · show ("WARNING: Inner wheel (.23) direction change failed - wheels may be mismatched!" : String) ≠ ""
      decide
    · show ("WARNING: Inner wheel (.23) direction change failed - wheels may be mismatched!" : String) =
        "WARNING: " ++ "Inner wheel" ++ " (.23) direction change failed - wheels may be mismatched!"
      decide
  · intro h1 h2
    have e : (Raptor.writeDirectionToBothWheels st d io1 io2).1 =
        { st with
            directionWarning :=
              "WARNING: Outer wheel (.24) direction change failed - wheels may be mismatched!"
            currentDirection := Raptor.normalizeDirection d } := by
      simp [Raptor.writeDirectionToBothWheels, h1, h2]
    rw [e]
    refine ⟨rfl, ?_, "WARNING: ",
      " (.24) direction change failed - wheels may be mismatched!", ?_⟩
    · show ("WARNING: Outer wheel (.24) direction change failed - wheels may be mismatched!" : String) ≠ ""
      decide
    · show ("WARNING: Outer wheel (.24) direction change failed - wheels may be mismatched!" : String) =
        "WARNING: " ++ "Outer wheel" ++ " (.24) direction change failed - wheels may be mismatched!"
      decide

/-- C3 witness: inner write fails (connect error), outer succeeds, request
`"rev"`: the direction becomes `"rev"` and the warning contains
`"Inner wheel"`. -/
theorem C3_single_failure_witness :
    (Raptor.writeDirectionToBothWheels Raptor.initialState "rev"
        ⟨false, true⟩ ⟨true, true⟩).1.currentDirection = "rev" ∧
    ∃ pre post,
      (Raptor.writeDirectionToBothWheels Raptor.initialState "rev"
          ⟨false, true⟩ ⟨true, true⟩).1.directionWarning =
        pre ++ "Inner wheel" ++ post := by
  obtain ⟨h1, -, h3⟩ :=
    (C3_single_failure_updates_and_warns Raptor.initialState "rev"
      ⟨false, true⟩ ⟨true, true⟩).1 (by decide) (by decide)
  exact ⟨h1.trans (by decide), h3⟩

/-- C4: the claim quotes the stored warning as
`"direction change failed on both wheels"`, but the source stores
`"Direction change failed on both wheels"` (leading capital).  Concretely:
initial state, request `"rev"`, both connects fail. -/
theorem C4_counterexample :
    (Raptor.writeDirectionToBothWheels Raptor.initialState "rev"
        ⟨false, true⟩ ⟨false, true⟩).1.directionWarning ≠
      "direction change failed on both wheels" ∧
    (Raptor.writeDirectionToBothWheels Raptor.initialState "rev"
        ⟨false, true⟩ ⟨false, true⟩).1.directionWarning =
      "Direction change failed on both wheels" := by
  constructor <;> decide

/-- C4 (amended): when both child-drive direction writes fail, the Control
State direction is unchanged from its prior value and the mismatch warning
is set to `"Direction change failed on both wheels"`. -/
theorem C4_amended_both_fail (st : Raptor.ControlState) (d : String)
    (io1 io2 : Raptor.ChildConn)
    (h1 : io1.failed = true) (h2 : io2.failed = true) :
    (Raptor.writeDirectionToBothWheels st d io1 io2).1.currentDirection =
      st.currentDirection ∧
    (Raptor.writeDirectionToBothWheels st d io1 io2).1.directionWarning =
      "Direction change failed on both wheels" := by
  have e : (Raptor.writeDirectionToBothWheels st d io1 io2).1 =
      { st with directionWarning := "Direction change failed on both wheels" } := by
    simp [Raptor.writeDirectionToBothWheels, h1, h2]
  rw [e]
  exact ⟨rfl, rfl⟩

/-- C4 witness: both connects fail from the initial state. -/
theorem C4_amended_both_fail_witness :
    (Raptor.writeDirectionToBothWheels Raptor.initialState "rev"
        ⟨false, true⟩ ⟨false, true⟩).1.currentDirection =
      Raptor.initialState.currentDirection ∧
    (Raptor.writeDirectionToBothWheels Raptor.initialState "rev"
        ⟨false, true⟩ ⟨false, true⟩).1.directionWarning =
      "Direction change failed on both wheels" :=
  C4_amended_both_fail Raptor.initialState "rev" ⟨false, true⟩ ⟨false, true⟩
    (by decide) (by decide)

/-- C5: when both child-drive direction writes succeed, the Control State
direction is updated to the requested direction — any value other than
`"rev"` normalized to `"fwd"` — and the stored mismatch warning is cleared
to the empty string. -/
theorem C5_both_succeed_update_and_clear (st : Raptor.ControlState)
    (d : String) (io1 io2 : Raptor.ChildConn)
    (h1 : io1.failed = false) (h2 : io2.failed = false) :
    (Raptor.writeDirectionToBothWheels st d io1 io2).1.currentDirection =
      Raptor.normalizeDirection d ∧
    (Raptor.writeDirectionToBothWheels st d io1 io2).1.directionWarning = "" ∧
    Raptor.normalizeDirection "rev" = "rev" ∧
    (d ≠ "rev" → Raptor.normalizeDirection d = "fwd") := by
  have e : (Raptor.writeDirectionToBothWheels st d io1 io2).1 =
      { st with currentDirection := Raptor.normalizeDirection d
                directionWarning := "" } := by
    simp [Raptor.writeDirectionToBothWheels, h1, h2]
  rw [e]
  exact ⟨rfl, rfl, rfl, fun hd => by simp [Raptor.normalizeDirection, hd]⟩

/-- C5 witness: request `"up"` (unrecognized) with both writes succeeding
normalizes to `"fwd"` and clears a previously stored warning. -/
theorem C5_both_succeed_witness :
    (Raptor.writeDirectionToBothWheels
        { Raptor.initialState with directionWarning := "old warning" } "up"
        ⟨true, true⟩ ⟨true, true⟩).1.currentDirection =
      Raptor.normalizeDirection "up" ∧
    (Raptor.writeDirectionToBothWheels
        { Raptor.initialState with directionWarning := "old warning" } "up"
        ⟨true, true⟩ ⟨true, true⟩).1.directionWarning = "" ∧
    Raptor.normalizeDirection "up" = "fwd" := by
  obtain ⟨h1, h2, -, h4⟩ := C5_both_succeed_update_and_clear
    { Raptor.initialState with directionWarning := "old warning" } "up"
    ⟨true, true⟩ ⟨true, true⟩ (by decide) (by decide)
  exact ⟨h1, h2, h4 (by decide)⟩

/-- C10: a failed chain-speed write leaves the recorded chain speed (indeed
the whole Control State) unchanged; the clamped value is recorded only
after a successful write; by contrast the wheel-speed path records the
clamped speed whatever the two child outcomes were. -/
theorem C10_chain_speed_failure_atomic (st : Raptor.ControlState) (s : Nat)
    (io1 io2 : Raptor.ChildConn) :
    (Raptor.writeChainSpeed st s false).1 = st ∧
    (Raptor.writeChainSpeed st s true).1.currentChainSpeed =
      Raptor.clampChainSpeed s ∧
    (Raptor.writeSpeedToBothWheels st s io1 io2).1.currentSpeed =
      Raptor.clampSpeed s :=
  ⟨rfl, rfl, rfl⟩

/-- C6: the claim that no operation in which every attempted device write
failed modifies any Control State field is false: from the initial state, a
wheel-speed command of 700 whose two child connections both fail issues no
write request at all, yet the recorded wheel speed changes from 600 to
700.  (The cited lines store the clamped speed unconditionally.) -/
theorem C6_counterexample :
    Raptor.initialState.currentSpeed = 600 ∧
    (Raptor.writeSpeedToBothWheels Raptor.initialState 700
        ⟨false, true⟩ ⟨false, true⟩).2 = [] ∧
    (Raptor.writeSpeedToBothWheels Raptor.initialState 700
        ⟨false, true⟩ ⟨false, true⟩).1.currentSpeed = 700 := by
  decide

/-- C6 (amended): the Control State is initialized to its defaults at
startup (forward, no warning, wheel speed 600, chain speed 420); a
direction write in which every device write failed leaves the direction and
both speed fields unchanged but does set the mismatch warning; a failed
chain-speed write leaves the state entirely unchanged; the wheel-speed
field, by contrast, is overwritten with the clamped speed even when every
child write failed. -/
theorem C6_amended_state_lifecycle :
    (Raptor.initialState.currentDirection = "fwd" ∧
      Raptor.initialState.directionWarning = "" ∧
      Raptor.initialState.currentSpeed = 600 ∧
      Raptor.initialState.currentChainSpeed = 420) ∧
    (∀ (st : Raptor.ControlState) (d : String) (io1 io2 : Raptor.ChildConn),
      io1.failed = true → io2.failed = true →
        (Raptor.writeDirectionToBothWheels st d io1 io2).1.currentDirection =
          st.currentDirection ∧
        (Raptor.writeDirectionToBothWheels st d io1 io2).1.currentSpeed =
          st.currentSpeed ∧
        (Raptor.writeDirectionToBothWheels st d io1 io2).1.currentChainSpeed =
          st.currentChainSpeed ∧
        (Raptor.writeDirectionToBothWheels st d io1 io2).1.directionWarning =
          "Direction change failed on both wheels") ∧
    (∀ (st : Raptor.ControlState) (s : Nat),
      (Raptor.writeChainSpeed st s false).1 = st) ∧
    (∀ (st : Raptor.ControlState) (s : Nat) (io1 io2 : Raptor.ChildConn),
      (Raptor.writeSpeedToBothWheels st s io1 io2).1.currentSpeed =
        Raptor.clampSpeed s) := by
  refine ⟨⟨rfl, rfl, rfl, rfl⟩, ?_, fun st s => rfl, fun st s io1 io2 => rfl⟩
  intro st d io1 io2 h1 h2
  have e : (Raptor.writeDirectionToBothWheels st d io1 io2).1 =
      { st with directionWarning := "Direction change failed on both wheels" } := by
    simp [Raptor.writeDirectionToBothWheels, h1, h2]
  rw [e]
  exact ⟨rfl, rfl, rfl, rfl⟩

/-- C6 witness: concrete fully-failed direction and speed writes from the
initial state. -/
theorem C6_amended_state_lifecycle_witness :
    (Raptor.writeDirectionToBothWheels Raptor.initialState "rev"
        ⟨false, true⟩ ⟨false, true⟩).1.currentDirection =
      Raptor.initialState.currentDirection ∧
    (Raptor.writeChainSpeed Raptor.initialState 500 false).1 =
      Raptor.initialState ∧
    (Raptor.writeSpeedToBothWheels Raptor.initialState 700
        ⟨false, true⟩ ⟨false, true⟩).1.currentSpeed =
      Raptor.clampSpeed 700 := by
  obtain ⟨hd, -, -, -⟩ := C6_amended_state_lifecycle.2.1 Raptor.initialState
    "rev" ⟨false, true⟩ ⟨false, true⟩ (by decide) (by decide)
  exact ⟨hd, C6_amended_state_lifecycle.2.2.1 Raptor.initialState 500,
    C6_amended_state_lifecycle.2.2.2 Raptor.initialState 700
      ⟨false, true⟩ ⟨false, true⟩⟩

/-- C7: in a poll tick in which the telemetry read of exactly one of the
three drives fails — whichever drive it is — the published snapshot carries
the two successful samples untouched, the all-zero sample for the failed
drive, and an incremented sequence number; a following tick in which that
drive's read succeeds publishes the fresh sample (the failure degraded one
tick only), again with the next sequence number. -/
theorem C7_single_read_failure_degrades_one_tick (st : Raptor.ControlState)
    (seq : Nat) (inp inp2 : Raptor.PollTickInput)
    (ta tb tf : Raptor.VFDTelemetry) :
    (Raptor.readVFDTelemetry inp.chainRead = none →
      Raptor.readVFDTelemetry inp.innerRead = some ta →
      Raptor.readVFDTelemetry inp.outerRead = some tb →
      Raptor.readVFDTelemetry inp2.chainRead = some tf →
      (Raptor.pollTick st seq inp).1.chain = Raptor.VFDTelemetry.zero ∧
      (Raptor.pollTick st seq inp).1.innerWheel = ta ∧
      (Raptor.pollTick st seq inp).1.outerWheel = tb ∧
      (Raptor.pollTick st seq inp).1.seq = (seq + 1) % 2 ^ 64 ∧
      (Raptor.pollTick st (Raptor.pollTick st seq inp).2 inp2).1.chain = tf ∧
      (Raptor.pollTick st (Raptor.pollTick st seq inp).2 inp2).1.seq =
        (seq + 2) % 2 ^ 64) ∧
    (Raptor.readVFDTelemetry inp.chainRead = some ta →
      Raptor.readVFDTelemetry inp.innerRead = none →
      Raptor.readVFDTelemetry inp.outerRead = some tb →
      Raptor.readVFDTelemetry inp2.innerRead = some tf →
      (Raptor.pollTick st seq inp).1.chain = ta ∧
      (Raptor.pollTick st seq inp).1.innerWheel = Raptor.VFDTelemetry.zero ∧
      (Raptor.pollTick st seq inp).1.outerWheel = tb ∧
      (Raptor.pollTick st seq inp).1.seq = (seq + 1) % 2 ^ 64 ∧
      (Raptor.pollTick st (Raptor.pollTick st seq inp).2 inp2).1.innerWheel = tf ∧
      (Raptor.pollTick st (Raptor.pollTick st seq inp).2 inp2).1.seq =
        (seq + 2) % 2 ^ 64) ∧
    (Raptor.readVFDTelemetry inp.chainRead = some ta →
      Raptor.readVFDTelemetry inp.innerRead = some tb →
      Raptor.readVFDTelemetry inp.outerRead = none →
      Raptor.readVFDTelemetry inp2.outerRead = some tf →
      (Raptor.pollTick st seq inp).1.chain = ta ∧
      (Raptor.pollTick st seq inp).1.innerWheel = tb ∧
      (Raptor.pollTick st seq inp).1.outerWheel = Raptor.VFDTelemetry.zero ∧
      (Raptor.pollTick st seq inp).1.seq = (seq + 1) % 2 ^ 64 ∧
      (Raptor.pollTick st (Raptor.pollTick st seq inp).2 inp2).1.outerWheel = tf ∧
      (Raptor.pollTick st (Raptor.pollTick st seq inp).2 inp2).1.seq =
        (seq + 2) % 2 ^ 64) := by
  refine ⟨?_, ?_, ?_⟩ <;>
    · intro h1 h2 h3 h4
      refine ⟨?_, ?_, ?_, rfl, ?_, ?_⟩
      · simp [Raptor.pollTick, h1]
      · simp [Raptor.pollTick, h2]
      · simp [Raptor.pollTick, h3]
      · simp [Raptor.pollTick, h4]
      · show ((seq + 1) % 2 ^ 64 + 1) % 2 ^ 64 = (seq + 2) % 2 ^ 64
        rw [Nat.mod_add_mod]

/-- C7 witness: three concrete first ticks, one per failing drive (failed
connection for that drive, fixed byte blocks for the other two), each
followed by a second tick in which every read succeeds. -/
theorem C7_single_read_failure_witness :
    ((Raptor.pollTick Raptor.initialState 0
        { chainRead := ⟨false, none⟩
          innerRead := ⟨true, some [0, 1, 0, 2, 0, 0, 0, 3, 0, 4, 0, 5]⟩
          outerRead := ⟨true, some [0, 6, 0, 7, 0, 0, 0, 8, 0, 9, 1, 0]⟩
          wheelsCoil := some true
          paddleCoil := none
          ts := "t0" }).1.chain = Raptor.VFDTelemetry.zero ∧
      (Raptor.pollTick Raptor.initialState 0
        { chainRead := ⟨false, none⟩
          innerRead := ⟨true, some [0, 1, 0, 2, 0, 0, 0, 3, 0, 4, 0, 5]⟩
          outerRead := ⟨true, some [0, 6, 0, 7, 0, 0, 0, 8, 0, 9, 1, 0]⟩
          wheelsCoil := some true
          paddleCoil := none
          ts := "t0" }).1.seq = (0 + 1) % 2 ^ 64) ∧
    ((Raptor.pollTick Raptor.initialState 0
        { chainRead := ⟨true, some [0, 1, 0, 2, 0, 0, 0, 3, 0, 4, 0, 5]⟩
          innerRead := ⟨false, none⟩
          outerRead := ⟨true, some [0, 6, 0, 7, 0, 0, 0, 8, 0, 9, 1, 0]⟩
          wheelsCoil := some true
          paddleCoil := none
          ts := "t0" }).1.innerWheel = Raptor.VFDTelemetry.zero ∧
      (Raptor.pollTick Raptor.initialState 0
        { chainRead := ⟨true, some [0, 1, 0, 2, 0, 0, 0, 3, 0, 4, 0, 5]⟩
          innerRead := ⟨false, none⟩
          outerRead := ⟨true, some [0, 6, 0, 7, 0, 0, 0, 8, 0, 9, 1, 0]⟩
          wheelsCoil := some true
          paddleCoil := none
          ts := "t0" }).1.outerWheel = ⟨6, 7, 8, 9 / 200, 256⟩) ∧
    ((Raptor.pollTick Raptor.initialState 0
        { chainRead := ⟨true, some [0, 1, 0, 2, 0, 0, 0, 3, 0, 4, 0, 5]⟩
          innerRead := ⟨true, some [0, 1, 0, 2, 0, 0, 0, 3, 0, 4, 0, 5]⟩
          outerRead := ⟨false, none⟩
          wheelsCoil := some true
          paddleCoil := none
          ts := "t0" }).1.outerWheel = Raptor.VFDTelemetry.zero ∧
      (Raptor.pollTick Raptor.initialState 0
        { chainRead := ⟨true, some [0, 1, 0, 2, 0, 0, 0, 3, 0, 4, 0, 5]⟩
          innerRead := ⟨true, some [0, 1, 0, 2, 0, 0, 0, 3, 0, 4, 0, 5]⟩
          outerRead := ⟨false, none⟩
          wheelsCoil := some true
          paddleCoil := none
          ts := "t0" }).1.chain = ⟨1, 2, 3, 4 / 200, 5⟩) := by
  obtain ⟨hc, -, -, hs, -, -⟩ :=
    (C7_single_read_failure_degrades_one_tick Raptor.initialState 0
      { chainRead := ⟨false, none⟩
        innerRead := ⟨true, some [0, 1, 0, 2, 0, 0, 0, 3, 0, 4, 0, 5]⟩
        outerRead := ⟨true, some [0, 6, 0, 7, 0, 0, 0, 8, 0, 9, 1, 0]⟩
        wheelsCoil := some true
        paddleCoil := none
        ts := "t0" }
      { chainRead := ⟨true, some [0, 1, 0, 2, 0, 0, 0, 3, 0, 4, 0, 5]⟩
        innerRead := ⟨true, some [0, 1, 0, 2, 0, 0, 0, 3, 0, 4, 0, 5]⟩
        outerRead := ⟨true, some [0, 6, 0, 7, 0, 0, 0, 8, 0, 9, 1, 0]⟩
        wheelsCoil := some true
        paddleCoil := none
        ts := "t1" }
      ⟨1, 2, 3, 4 / 200, 5⟩ ⟨6, 7, 8, 9 / 200, 256⟩ ⟨1, 2, 3, 4 / 200, 5⟩).1
      (by norm_num [Raptor.readVFDTelemetry])
      (by norm_num [Raptor.readVFDTelemetry, Raptor.be16])
      (by norm_num [Raptor.readVFDTelemetry, Raptor.be16])
      (by norm_num [Raptor.readVFDTelemetry, Raptor.be16])
  obtain ⟨-, hi, ho, -, -, -⟩ :=
    (C7_single_read_failure_degrades_one_tick Raptor.initialState 0
      { chainRead := ⟨true, some [0, 1, 0, 2, 0, 0, 0, 3, 0, 4, 0, 5]⟩
        innerRead := ⟨false, none⟩
        outerRead := ⟨true, some [0, 6, 0, 7, 0, 0, 0, 8, 0, 9, 1, 0]⟩
        wheelsCoil := some true
        paddleCoil := none
        ts := "t0" }
      { chainRead := ⟨true, some [0, 1, 0, 2, 0, 0, 0, 3, 0, 4, 0, 5]⟩
        innerRead := ⟨true, some [0, 1, 0, 2, 0, 0, 0, 3, 0, 4, 0, 5]⟩
        outerRead := ⟨true, some [0, 6, 0, 7, 0, 0, 0, 8, 0, 9, 1, 0]⟩
        wheelsCoil := some true
        paddleCoil := none
        ts := "t1" }
      ⟨1, 2, 3, 4 / 200, 5⟩ ⟨6, 7, 8, 9 / 200, 256⟩ ⟨1, 2, 3, 4 / 200, 5⟩).2.1
      (by norm_num [Raptor.readVFDTelemetry, Raptor.be16])
      (by norm_num [Raptor.readVFDTelemetry])
      (by norm_num [Raptor.readVFDTelemetry, Raptor.be16])
      (by norm_num [Raptor.readVFDTelemetry, Raptor.be16])
  obtain ⟨hc2, -, ho2, -, -, -⟩ :=
    (C7_single_read_failure_degrades_one_tick Raptor.initialState 0
      { chainRead := ⟨true, some [0, 1, 0, 2, 0, 0, 0, 3, 0, 4, 0, 5]⟩
        innerRead := ⟨true, some [0, 1, 0, 2, 0, 0, 0, 3, 0, 4, 0, 5]⟩
        outerRead := ⟨false, none⟩
        wheelsCoil := some true
        paddleCoil := none
        ts := "t0" }
      { chainRead := ⟨true, some [0, 1, 0, 2, 0, 0, 0, 3, 0, 4, 0, 5]⟩
        innerRead := ⟨true, some [0, 1, 0, 2, 0, 0, 0, 3, 0, 4, 0, 5]⟩
        outerRead := ⟨true, some [0, 6, 0, 7, 0, 0, 0, 8, 0, 9, 1, 0]⟩
        wheelsCoil := some true
        paddleCoil := none
        ts := "t1" }
      ⟨1, 2, 3, 4 / 200, 5⟩ ⟨1, 2, 3, 4 / 200, 5⟩ ⟨6, 7, 8, 9 / 200, 256⟩).2.2
      (by norm_num [Raptor.readVFDTelemetry, Raptor.be16])
      (by norm_num [Raptor.readVFDTelemetry, Raptor.be16])
      (by norm_num [Raptor.readVFDTelemetry])
      (by norm_num [Raptor.readVFDTelemetry, Raptor.be16])
  exact ⟨⟨hc, hs⟩, ⟨hi, ho⟩, ⟨ho2, hc2⟩⟩

/-- The poll loop publishes exactly one snapshot per tick. -/
lemma pollRunFrom_length (inputs : List Raptor.PollTickInput) :
    ∀ (st : Raptor.ControlState) (seq : Nat),
      (Raptor.pollRunFrom st seq inputs).length = inputs.length := by
  induction inputs with
  | nil => intro st seq; rfl
  | cons inp rest ih =>
    intro st seq
    simp [Raptor.pollRunFrom, ih]

/-- Sequence number of the `i`-th snapshot published from counter value
`seq`. -/
lemma pollRunFrom_seq_getD (inputs : List Raptor.PollTickInput) :
    ∀ (st : Raptor.ControlState) (seq i : Nat), i < inputs.length →
      ((Raptor.pollRunFrom st seq inputs).map Raptor.Snapshot.seq).getD i 0 =
        (seq + i + 1) % 2 ^ 64 := by
  induction inputs with
  | nil => intro st seq i h; simp at h
  | cons inp rest ih =>
    intro st seq i h
    cases i with
    | zero => simp [Raptor.pollRunFrom, Raptor.pollTick]
    | succ n =>
      have hn : n < rest.length := by simpa using h
      simp only [Raptor.pollRunFrom, List.map_cons, List.getD_cons_succ]
      rw [ih _ _ n hn]
      show ((seq + 1) % 2 ^ 64 + n + 1) % 2 ^ 64 = (seq + (n + 1) + 1) % 2 ^ 64
      omega

/-- C8: across a run of the poll loop over any list of tick inputs, one
snapshot is published per tick and the `i`-th published snapshot carries
sequence number `i + 1` (up to the `uint64` wrap bound): the sequence
numbers start at 1 and increase by exactly 1 per snapshot, with no gaps and
no repeats. -/
theorem C8_snapshot_seq_strictly_increasing (st : Raptor.ControlState)
    (inputs : List Raptor.PollTickInput) (i : Nat)
    (h1 : i < inputs.length) (h2 : i + 1 < 2 ^ 64) :
    ((Raptor.pollRun st inputs).map Raptor.Snapshot.seq).getD i 0 = i + 1 ∧
    (Raptor.pollRun st inputs).length = inputs.length := by
  refine ⟨?_, pollRunFrom_length inputs st 0⟩
  rw [show Raptor.pollRun st inputs = Raptor.pollRunFrom st 0 inputs from rfl,
    pollRunFrom_seq_getD inputs st 0 i h1]
  omega

/-- C8 witness: a three-tick run; the second snapshot has sequence
number 2, and three snapshots are published. -/
theorem C8_snapshot_seq_witness :
    ((Raptor.pollRun Raptor.initialState
        [⟨⟨false, none⟩, ⟨false, none⟩, ⟨false, none⟩, none, none, "t"⟩,
          ⟨⟨false, none⟩, ⟨false, none⟩, ⟨false, none⟩, none, none, "t"⟩,
          ⟨⟨false, none⟩, ⟨false, none⟩, ⟨false, none⟩, none, none, "t"⟩]).map
      Raptor.Snapshot.seq).getD 1 0 = 1 + 1 ∧
    (Raptor.pollRun Raptor.initialState
        [⟨⟨false, none⟩, ⟨false, none⟩, ⟨false, none⟩, none, none, "t"⟩,
          ⟨⟨false, none⟩, ⟨false, none⟩, ⟨false, none⟩, none, none, "t"⟩,
          ⟨⟨false, none⟩, ⟨false, none⟩, ⟨false, none⟩, none, none, "t"⟩]).length = 3 :=
  C8_snapshot_seq_strictly_increasing Raptor.initialState _ 1
    (by decide) (by norm_num)

/-- A wheels-run coil write (1-based 50066, wire address 50065). -/
def Raptor.isWheelsCoilWrite (e : Raptor.WriteEvent) : Bool :=
  e.kind == Raptor.WKind.coil && e.addr == 50065

/-- A chain-run coil write (1-based 50067, wire address 50066). -/
def Raptor.isChainCoilWrite (e : Raptor.WriteEvent) : Bool :=
  e.kind == Raptor.WKind.coil && e.addr == 50066

/-- A direction-register (P0227) write. -/
def Raptor.isDirectionRegWrite (e : Raptor.WriteEvent) : Bool :=
  e.kind == Raptor.WKind.reg && e.addr == Raptor.directionRegister

/-- A wheel-speed write: the speed register on a child drive. -/
def Raptor.isWheelSpeedWrite (e : Raptor.WriteEvent) : Bool :=
  e.kind == Raptor.WKind.reg && e.addr == Raptor.speedRegister &&
    (e.dev == Raptor.Device.child1 || e.dev == Raptor.Device.child2)

/-- A chain-speed write: the speed register on the main drive. -/
def Raptor.isChainSpeedWrite (e : Raptor.WriteEvent) : Bool :=
  e.kind == Raptor.WKind.reg && e.addr == Raptor.speedRegister &&
    e.dev == Raptor.Device.mainVFD

/-- Value of `List.any` over a child operation's request list. -/
lemma any_childTrace (io : Raptor.ChildConn) (dev : Raptor.Device)
    (addr v : Nat) (p : Raptor.WriteEvent → Bool) :
    (Raptor.childTrace io dev addr v).any p =
      (io.connectOk && p ⟨Raptor.WKind.reg, dev, addr, v⟩) := by
  cases h : io.connectOk <;> simp [Raptor.childTrace, h]

/-- The requests issued by a direction dual write do not depend on the
outcome classification. -/
lemma writeDirection_trace (st : Raptor.ControlState) (d : String)
    (io1 io2 : Raptor.ChildConn) :
    (Raptor.writeDirectionToBothWheels st d io1 io2).2 =
      Raptor.childTrace io1 Raptor.Device.child1 Raptor.directionRegister
        (Raptor.directionVal d) ++
      Raptor.childTrace io2 Raptor.Device.child2 Raptor.directionRegister
        (Raptor.directionVal d) := by
  cases h1 : io1.failed <;> cases h2 : io2.failed <;>
    simp [Raptor.writeDirectionToBothWheels, h1, h2]

/-- The chain-speed request is issued whether or not the write succeeds. -/
lemma writeChainSpeed_trace (st : Raptor.ControlState) (s : Nat)
    (ok : Bool) :
    (Raptor.writeChainSpeed st s ok).2 =
      [⟨Raptor.WKind.reg, Raptor.Device.mainVFD, Raptor.speedRegister,
        Raptor.clampChainSpeed s⟩] := by
  cases ok <;> rfl

set_option maxHeartbeats 1000000 in
/-- C9: for every inbound command, with all operations succeeding, each of
the five write kinds (wheels coil, chain coil, direction, wheel speed,
chain speed) appears in the issued requests exactly when the corresponding
field is present; and whatever the I/O outcomes, an absent field causes no
write of its kind. -/
theorem C9_writes_iff_fields_present (st : Raptor.ControlState)
    (c : Raptor.Cmd) (f : Raptor.Faults) :
    ((Raptor.processCmd st c Raptor.Faults.allOk).2.any
        Raptor.isWheelsCoilWrite = c.wheels.isSome ∧
      (Raptor.processCmd st c Raptor.Faults.allOk).2.any
        Raptor.isChainCoilWrite = c.chain.isSome ∧
      (Raptor.processCmd st c Raptor.Faults.allOk).2.any
        Raptor.isDirectionRegWrite = c.direction.isSome ∧
      (Raptor.processCmd st c Raptor.Faults.allOk).2.any
        Raptor.isWheelSpeedWrite = c.speed.isSome ∧
      (Raptor.processCmd st c Raptor.Faults.allOk).2.any
        Raptor.isChainSpeedWrite = c.chainSpeed.isSome) ∧
    ((c.wheels = none →
        (Raptor.processCmd st c f).2.any Raptor.isWheelsCoilWrite = false) ∧
      (c.chain = none →
        (Raptor.processCmd st c f).2.any Raptor.isChainCoilWrite = false) ∧
      (c.direction = none →
        (Raptor.processCmd st c f).2.any Raptor.isDirectionRegWrite = false) ∧
      (c.speed = none →
        (Raptor.processCmd st c f).2.any Raptor.isWheelSpeedWrite = false) ∧
      (c.chainSpeed = none →
        (Raptor.processCmd st c f).2.any Raptor.isChainSpeedWrite = false)) := by
  obtain ⟨w, ch, dir, sp, cs⟩ := c
  constructor
  · refine ⟨?_, ?_, ?_, ?_, ?_⟩ <;>
      cases w <;> cases ch <;> cases dir <;> cases sp <;> cases cs <;>
        simp [Raptor.processCmd, Raptor.writeCoilEvent, writeDirection_trace,
          writeChainSpeed_trace, Raptor.writeSpeedToBothWheels, any_childTrace,
          Raptor.Faults.allOk, Raptor.isWheelsCoilWrite,
          Raptor.isChainCoilWrite, Raptor.isDirectionRegWrite,
          Raptor.isWheelSpeedWrite, Raptor.isChainSpeedWrite,
          Raptor.wheelsCoilOneBased, Raptor.chainCoilOneBased,
          Raptor.directionRegister, Raptor.speedRegister]
  · refine ⟨?_, ?_, ?_, ?_, ?_⟩
    · intro h; subst h
      cases ch <;> cases dir <;> cases sp <;> cases cs <;>
        simp [Raptor.processCmd, Raptor.writeCoilEvent, writeDirection_trace,
          writeChainSpeed_trace, Raptor.writeSpeedToBothWheels, any_childTrace,
          Raptor.isWheelsCoilWrite, Raptor.isChainCoilWrite,
          Raptor.isDirectionRegWrite, Raptor.isWheelSpeedWrite,
          Raptor.isChainSpeedWrite, Raptor.wheelsCoilOneBased,
          Raptor.chainCoilOneBased, Raptor.directionRegister,
          Raptor.speedRegister]
    · intro h; subst h
      cases w <;> cases dir <;> cases sp <;> cases cs <;>
        simp [Raptor.processCmd, Raptor.writeCoilEvent, writeDirection_trace,
          writeChainSpeed_trace, Raptor.writeSpeedToBothWheels, any_childTrace,
          Raptor.isWheelsCoilWrite, Raptor.isChainCoilWrite,
          Raptor.isDirectionRegWrite, Raptor.isWheelSpeedWrite,
          Raptor.isChainSpeedWrite, Raptor.wheelsCoilOneBased,
          Raptor.chainCoilOneBased, Raptor.directionRegister,
          Raptor.speedRegister]
    · intro h; subst h
      cases w <;> cases ch <;> cases sp <;> cases cs <;>
        simp [Raptor.processCmd, Raptor.writeCoilEvent, writeDirection_trace,
          writeChainSpeed_trace, Raptor.writeSpeedToBothWheels, any_childTrace,
          Raptor.isWheelsCoilWrite, Raptor.isChainCoilWrite,
          Raptor.isDirectionRegWrite, Raptor.isWheelSpeedWrite,
          Raptor.isChainSpeedWrite, Raptor.wheelsCoilOneBased,
          Raptor.chainCoilOneBased, Raptor.directionRegister,
          Raptor.speedRegister]
    · intro h; subst h
      cases w <;> cases ch <;> cases dir <;> cases cs <;>
        simp [Raptor.processCmd, Raptor.writeCoilEvent, writeDirection_trace,
          writeChainSpeed_trace, Raptor.writeSpeedToBothWheels, any_childTrace,
          Raptor.isWheelsCoilWrite, Raptor.isChainCoilWrite,
          Raptor.isDirectionRegWrite, Raptor.isWheelSpeedWrite,
          Raptor.isChainSpeedWrite, Raptor.wheelsCoilOneBased,
          Raptor.chainCoilOneBased, Raptor.directionRegister,
          Raptor.speedRegister]
    · intro h; subst h
      cases w <;> cases ch <;> cases dir <;> cases sp <;>
        simp [Raptor.processCmd, Raptor.writeCoilEvent, writeDirection_trace,
          writeChainSpeed_trace, Raptor.writeSpeedToBothWheels, any_childTrace,
          Raptor.isWheelsCoilWrite, Raptor.isChainCoilWrite,
          Raptor.isDirectionRegWrite, Raptor.isWheelSpeedWrite,
          Raptor.isChainSpeedWrite, Raptor.wheelsCoilOneBased,
          Raptor.chainCoilOneBased, Raptor.directionRegister,
          Raptor.speedRegister]

set_option maxHeartbeats 1000000 in
/-- C2: in the variant with the direction-control enable flag
(`src/main.go`, `ENABLE_DIRECTION_CONTROL`, false by default), processing a
command — even one containing a direction field — issues no
direction-register write to either child drive when the flag is unset,
while with the flag set a command with a direction field does issue
direction-register writes. -/
theorem C2_direction_flag_gates_writes (st : RaptorLegacy.ControlState)
    (c : RaptorLegacy.Cmd) (f : RaptorLegacy.Faults) (d : String) :
    ((RaptorLegacy.processCmd false st c f).2.any
        RaptorLegacy.isDirectionWrite = false) ∧
    ((RaptorLegacy.processCmd true st
        { c with direction := some d } f).2.any
        RaptorLegacy.isDirectionWrite = true) := by
  obtain ⟨w, ch, dir, sp⟩ := c
  constructor
  · cases w <;> cases ch <;> cases dir <;> cases sp <;>
      simp [RaptorLegacy.processCmd, RaptorLegacy.writeDirectionToBothWheels,
        RaptorLegacy.writeSpeedToBothWheels, RaptorLegacy.isDirectionWrite,
        Raptor.writeCoilEvent, any_childTrace, RaptorLegacy.directionRegister,
        RaptorLegacy.speedRegister, Raptor.wheelsCoilOneBased,
        Raptor.chainCoilOneBased]
  · cases w <;> cases ch <;> cases sp <;>
      simp [RaptorLegacy.processCmd, RaptorLegacy.writeDirectionToBothWheels,
        RaptorLegacy.writeSpeedToBothWheels, RaptorLegacy.isDirectionWrite,
        Raptor.writeCoilEvent, any_childTrace, RaptorLegacy.directionRegister,
        RaptorLegacy.speedRegister, Raptor.wheelsCoilOneBased,
        Raptor.chainCoilOneBased]

/-- C9 witness: a command carrying only a wheel speed, under arbitrary
concrete I/O outcomes, touches neither coils nor the direction register,
and under all-success outcomes its only register writes are wheel-speed
writes. -/
theorem C9_writes_iff_fields_present_witness :
    (Raptor.processCmd Raptor.initialState ⟨none, none, none, some 700, none⟩
        ⟨false, false, ⟨false, false⟩, ⟨false, false⟩, ⟨true, false⟩,
          ⟨true, true⟩, false⟩).2.any Raptor.isWheelsCoilWrite = false ∧
    (Raptor.processCmd Raptor.initialState ⟨none, none, none, some 700, none⟩
        ⟨false, false, ⟨false, false⟩, ⟨false, false⟩, ⟨true, false⟩,
          ⟨true, true⟩, false⟩).2.any Raptor.isDirectionRegWrite = false ∧
    (Raptor.processCmd Raptor.initialState ⟨none, none, none, some 700, none⟩
        Raptor.Faults.allOk).2.any Raptor.isWheelSpeedWrite = true := by
  have h := C9_writes_iff_fields_present Raptor.initialState
    ⟨none, none, none, some 700, none⟩
    ⟨false, false, ⟨false, false⟩, ⟨false, false⟩, ⟨true, false⟩,
      ⟨true, true⟩, false⟩
  exact ⟨h.2.1 rfl, h.2.2.2.1 rfl, h.1.2.2.2.1⟩
